import Mathlib

/-!
Shallow embedding of the `genie` CLI (src/main.go): a Go program that collects
git changes, builds a prompt, calls the Gemini completion endpoint, and prints
and copies the resulting commit message.  Pure functions of the source are
translated as Lean functions; the effectful `main` is modelled as a function
from an explicit environment (results of the external calls) to the list of
observable events (prints, subprocess invocations, the HTTP POST, the
clipboard attempt) together with the process exit status.
-/

namespace Genie

/-- Go `unicode.IsSpace` restricted to the Latin-1 white-space characters
(tab, newline, vertical tab, form feed, carriage return, space, NEL, NBSP);
white space outside Latin-1 is not used by any statement below. -/
def goIsSpace (c : Char) : Bool :=
  c = Char.ofNat 9 || c = Char.ofNat 10 || c = Char.ofNat 11 || c = Char.ofNat 12 ||
  c = Char.ofNat 13 || c = Char.ofNat 32 || c = Char.ofNat 133 || c = Char.ofNat 160

/-- Go `strings.Trim` with a cutset predicate `p`: removes ALL leading and
trailing characters satisfying `p` (`strings.TrimLeft` followed by
`strings.TrimRight`). -/
def goTrim (p : Char → Bool) (s : String) : String :=
  ⟨(s.data.dropWhile p).rdropWhile p⟩

/-- Go `strings.TrimSpace`. -/
def goTrimSpace (s : String) : String := goTrim goIsSpace s

/-- The cutset of the call `strings.Trim(commitMsg, "\"'")` in main.go line 454:
a double-quote or single-quote character. -/
def isQuoteChar (c : Char) : Bool := c = Char.ofNat 34 || c = Char.ofNat 39

/-- Lines 451 and 454 of main.go: the first text part is passed through
`strings.TrimSpace` and then `strings.Trim(·, "\"'")`. -/
def cleanCommitMessage (text : String) : String :=
  goTrim isQuoteChar (goTrimSpace text)

/-- Response schema `PartResponse` of main.go. -/
structure PartResponse where
  text : String
deriving DecidableEq

/-- Response schema `ContentResponse` of main.go. -/
structure ContentResponse where
  parts : List PartResponse
deriving DecidableEq

/-- Response schema `Candidate` of main.go. -/
structure Candidate where
  content : ContentResponse
deriving DecidableEq

/-- Response schema `ErrorInfo` of main.go. -/
structure ErrorInfo where
  code : Int
  message : String
deriving DecidableEq

/-- Response schema `GeminiResponse` of main.go: an optional top-level error
object next to the candidates list. -/
structure GeminiResponse where
  candidates : List Candidate
  error : Option ErrorInfo
deriving DecidableEq

/-- Outcome of `json.Unmarshal` on the response body: either the decoder
rejects the bytes (carrying its message) or it yields a `GeminiResponse`. -/
inductive BodyParse where
  | malformed (msg : String)
  | ok (resp : GeminiResponse)
deriving DecidableEq

/-- An HTTP response as far as generateCommitMessage observes it: the status
code (which the Go code never reads) and the parsed body. -/
structure HttpResponse where
  statusCode : Nat
  bodyParse : BodyParse
deriving DecidableEq

/-- Outcome of the single `client.Do` round trip: a transport-level failure
(connection, timeout, body-read error) or an HTTP response. -/
inductive ApiOutcome where
  | transportError (msg : String)
  | response (r : HttpResponse)
deriving DecidableEq

/-- The distinct failure conditions of generateCommitMessage, one constructor
per `return "", err` site in main.go lines 423-449. -/
inductive GenError where
  | transport (msg : String)
  | parse (msg : String)
  | apiError (msg : String)
  | noResponse
  | emptyResponse
deriving DecidableEq

/-- The message each failure renders with (`err.Error()` in Go): the three
`fmt.Errorf` sites of main.go lines 440, 444, 448, and the propagated
transport/decoder messages. -/
def renderGenError : GenError → String
  | .transport m => m
  | .parse m => m
  | .apiError m => "API error: " ++ m
  | .noResponse => "no response from Gemini API"
  | .emptyResponse => "empty response from Gemini API"

/-- Lines 434-456 of main.go: decode the body, check the error object, check
for an empty candidates list, check for an empty parts list, then clean the
first text segment.  The status code field is carried but never consulted,
mirroring the Go code, which never reads `resp.StatusCode`. -/
def processResponse (r : HttpResponse) : Except GenError String :=
  match r.bodyParse with
  | .malformed m => .error (.parse m)
  | .ok resp =>
    match resp.error with
    | some e => .error (.apiError e.message)
    | none =>
      match resp.candidates with
      | [] => .error .noResponse
      | c :: _ =>
        match c.content.parts with
        | [] => .error .emptyResponse
        | p :: _ => .ok (cleanCommitMessage p.text)

/-- The git subcommands the program runs (exec.Command invocations). -/
inductive GitCmd where
  | revParseGitDir
  | diffCached
  | diff
  | lsFilesOthers
  | statusPorcelain
deriving DecidableEq

/-- Stdout (or failure) of each git query getGitDiff may run, fixed by the
repository state at invocation time. -/
structure GitEnv where
  diffCached : Except String String
  diffWorking : Except String String
  lsFiles : Except String String

/-- Lines 262-271 of main.go: the synthetic listing built for untracked files
by splitting the output on newlines and prefixing each non-empty name. -/
def untrackedSummary (untrackedFiles : String) : String :=
  let files := untrackedFiles.splitOn ("\n")
  "New untracked files:\n" ++
    String.join (files.map (fun file => if file ≠ "" then "+ " ++ file ++ "\n" else ""))

/-- getGitDiff of main.go (lines 226-275): try the staged diff, then the
unstaged diff, then the untracked listing, short-circuiting on the first
non-empty trimmed result.  The first component records which git queries were
actually run, in order; the second is the returned (diff, changesType) pair or
the propagated subprocess error. -/
def getGitDiff (g : GitEnv) : List GitCmd × Except String (String × String) :=
  match g.diffCached with
  | .error e => ([.diffCached], .error e)
  | .ok out =>
    if goTrimSpace out ≠ "" then ([.diffCached], .ok (goTrimSpace out, "staged"))
    else
      match g.diffWorking with
      | .error e => ([.diffCached, .diff], .error e)
      | .ok out2 =>
        if goTrimSpace out2 ≠ "" then
          ([.diffCached, .diff], .ok (goTrimSpace out2, "unstaged"))
        else
          match g.lsFiles with
          | .error e => ([.diffCached, .diff, .lsFilesOthers], .error e)
          | .ok out3 =>
            if goTrimSpace out3 ≠ "" then
              ([.diffCached, .diff, .lsFilesOthers],
                .ok (untrackedSummary (goTrimSpace out3), "untracked"))
            else ([.diffCached, .diff, .lsFilesOthers], .ok ("", ""))

/-- Request schema `Part` of main.go. -/
structure Part where
  text : String
deriving DecidableEq

/-- Request schema `Content` of main.go. -/
structure Content where
  parts : List Part
deriving DecidableEq

/-- Request schema `GeminiRequest` of main.go. -/
structure GeminiRequest where
  contents : List Content
deriving DecidableEq

/-- Constant `appName` of main.go. -/
def appName : String := "genie"

/-- Constant `version` of main.go. -/
def version : String := "1.0.0"

/-- Lines 287-295 of main.go: the human-readable label for the kind of
changes being analyzed; any other tag leaves the description empty. -/
def changesDescription (changesType : String) : String :=
  if changesType = "staged" then "staged changes (ready to commit)"
  else if changesType = "unstaged" then "unstaged changes (not yet staged for commit)"
  else if changesType = "untracked" then "untracked files (new files not yet added to git)"
  else ""

/-- The fixed role/rules/emoji-table preamble written to the prompt builder at
main.go line 300 (one Lean string literal per source line). -/
def promptPreamble : String :=
  "You are a world-class senior software engineer and git expert with years of experience writing perfect, professional commit messages. Your task is to analyze git changes and generate the ideal commit message.\n" ++
  "\n" ++
  "ANALYSIS REQUIREMENTS:\n" ++
  "- Carefully examine the git diff and status to understand what actually changed\n" ++
  "- Identify the primary purpose and impact of the changes\n" ++
  "- Consider the scope and complexity of modifications\n" ++
  "- Determine if this is a feature, fix, refactor, or other type of change\n" ++
  "\n" ++
  "COMMIT MESSAGE RULES:\n" ++
  "1. 🎯 START WITH APPROPRIATE EMOJI: Choose the most relevant emoji that represents the change type\n" ++
  "2. 📏 FORMAT: Use conventional commit format: \"emoji type(scope): description\"\n" ++
  "3. 🔤 IMPERATIVE MOOD: Use imperative mood (\"add\" not \"added\", \"fix\" not \"fixed\")\n" ++
  "4. 📐 LENGTH: Keep first line under 50 characters when possible, maximum 72\n" ++
  "5. 🎯 BE SPECIFIC: Focus on WHAT changed and WHY, not HOW\n" ++
  "6. 🚫 NO FILENAMES: Don\x27t mention specific files unless absolutely crucial\n" ++
  "7. 💡 CLARITY: Make it immediately clear what the commit accomplishes\n" ++
  "8. 🏷️ SCOPE: Include scope in parentheses when it adds clarity (e.g., auth, api, ui)\n" ++
  "\n" ++
  "CONVENTIONAL COMMIT TYPES:\n" ++
  "- feat: New features or enhancements\n" ++
  "- fix: Bug fixes and corrections  \n" ++
  "- docs: Documentation changes\n" ++
  "- style: Code formatting, whitespace, styling\n" ++
  "- refactor: Code restructuring without functionality changes\n" ++
  "- test: Adding or modifying tests\n" ++
  "- chore: Maintenance, build process, dependencies\n" ++
  "- perf: Performance improvements\n" ++
  "- ci: CI/CD pipeline changes\n" ++
  "- build: Build system, external dependencies\n" ++
  "- revert: Reverting previous changes\n" ++
  "\n" ++
  "EMOJI SELECTION GUIDE:\n" ++
  "✨ feat: new features, enhancements\n" ++
  "🐛 fix: bug fixes, error corrections\n" ++
  "📝 docs: documentation, README updates\n" ++
  "💄 style: formatting, code style, UI styling\n" ++
  "♻️ refactor: code refactoring, restructuring\n" ++
  "✅ test: adding/updating tests\n" ++
  "🔧 chore: maintenance, config, build\n" ++
  "⚡ perf: performance optimizations\n" ++
  "👷 ci: CI/CD, workflows, automation\n" ++
  "📦 build: build system, dependencies\n" ++
  "🚀 deploy: deployment, releases\n" ++
  "🔒 security: security fixes, improvements\n" ++
  "🎨 ui: UI/UX improvements, design\n" ++
  "🗃️ database: database changes, migrations\n" ++
  "🔥 remove: removing code, files, features\n" ++
  "🩹 hotfix: critical fixes\n" ++
  "🚚 move: moving or renaming files\n" ++
  "📱 responsive: mobile/responsive changes\n" ++
  "🌐 i18n: internationalization, localization\n" ++
  "🔊 logging: adding or updating logs\n" ++
  "🔇 mute: removing logs\n" ++
  "👥 contributor: adding contributors\n" ++
  "🚸 accessibility: improving accessibility\n" ++
  "💚 green: fixing CI, improving build\n" ++
  "🔖 release: version tags, releases\n" ++
  "🚨 warning: fixing warnings, linter issues\n" ++
  "🚧 wip: work in progress\n" ++
  "💥 breaking: breaking changes\n" ++
  "📈 analytics: adding analytics, tracking\n" ++
  "🔐 auth: authentication, authorization\n" ++
  "🌍 global: global changes, configurations"

/-- The context block appended at main.go lines 365-372 when the developer
supplied a context argument. -/
def contextSection (context : String) : String :=
  "\n" ++
  "\n" ++
  "🎯 DEVELOPER CONTEXT:\n" ++
  "The developer provided this context: \"" ++ context ++ "\"\n" ++
  "\n" ++
  "This context is CRITICAL - use it to understand the broader purpose and ensure your commit message accurately reflects the intended changes within this context. The context should guide your interpretation of what these technical changes accomplish at a higher level."

/-- The change-analysis / response-format block appended at main.go
lines 374-398, with the three format arguments spliced in. -/
def analysisSection (description status diff : String) : String :=
  "\n" ++
  "\n" ++
  "📊 CHANGE ANALYSIS:\n" ++
  "You are analyzing: " ++ description ++ "\n" ++
  "\n" ++
  "Git Status Output:\n" ++ status ++ "\n" ++
  "\n" ++
  "Git Diff/Changes:\n" ++ diff ++ "\n" ++
  "\n" ++
  "🎯 RESPONSE FORMAT:\n" ++
  "Respond with ONLY the commit message including emoji. No explanations, quotes, or additional text.\n" ++
  "\n" ++
  "EXAMPLES OF EXCELLENT COMMIT MESSAGES:\n" ++
  "✨ feat(auth): add OAuth2 Google integration\n" ++
  "🐛 fix(api): handle null response in user endpoint  \n" ++
  "♻️ refactor(utils): simplify date formatting logic\n" ++
  "📝 docs: update API authentication guide\n" ++
  "🔧 chore(deps): update React to v18.2.0\n" ++
  "⚡ perf(db): optimize user query with indexing\n" ++
  "🎨 ui: improve button hover animations\n" ++
  "🔒 security: sanitize user input in forms\n" ++
  "\n" ++
  "Generate the perfect commit message now:"

/-- Lines 297-398 of main.go: the full prompt assembled by the string
builder, as a function of exactly the diff, status, optional context, and
changes-type tag. -/
def buildPrompt (diff status context changesType : String) : String :=
  promptPreamble ++
  (if context ≠ "" then contextSection context else "") ++
  analysisSection (changesDescription changesType) status diff

/-- Lines 400-408 of main.go: the request envelope wrapping the prompt. -/
def requestBody (diff status context changesType : String) : GeminiRequest :=
  { contents := [{ parts := [{ text := buildPrompt diff status context changesType }] }] }

/-- generateCommitMessage of main.go (lines 286-457).  The prompt of
`requestBody diff status context changesType` is POSTed once with the key in
the URL query; `api` fixes the outcome of that single round trip, and the
response handling is `processResponse`.  (`json.Marshal` of the request and
`http.NewRequest` cannot fail on these inputs and are not modelled as
failure sources.) -/
def generateCommitMessage (api : ApiOutcome) (apiKey diff status context changesType : String) :
    Except GenError String :=
  match api with
  | .transportError m => .error (.transport m)
  | .response r => processResponse r

/-- Color constants of main.go. -/
def colorReset : String := "\x1b[0m"

/-- Dim gray for logs. -/
def colorGray : String := "\x1b[90m"

/-- Success messages. -/
def colorGreen : String := "\x1b[32m"

/-- Info messages. -/
def colorBlue : String := "\x1b[34m"

/-- Warnings. -/
def colorYellow : String := "\x1b[33m"

/-- Errors. -/
def colorRed : String := "\x1b[31m"

/-- Bold text. -/
def colorBold : String := "\x1b[1m"

/-- Highlights. -/
def colorCyan : String := "\x1b[36m"

/-- Observable actions of one program run: stdout writes, stderr writes, git
subprocess invocations, the HTTP POST to the completion endpoint, and the
clipboard-copy attempt. -/
inductive Event where
  | out (s : String)
  | err (s : String)
  | git (c : GitCmd)
  | httpPost
  | clipboard
deriving DecidableEq

/-- Helper `grayf` of main.go: stdout write wrapped in the gray color. -/
def grayE (s : String) : Event := .out (colorGray ++ s ++ colorReset)

/-- Helper `redf` of main.go: stderr write wrapped in red. -/
def redE (s : String) : Event := .err (colorRed ++ s ++ colorReset)

/-- Helper `boldf` of main.go: stdout write wrapped in bold. -/
def boldE (s : String) : Event := .out (colorBold ++ s ++ colorReset)

/-- Helper `cyanf` of main.go: stdout write wrapped in cyan. -/
def cyanE (s : String) : Event := .out (colorCyan ++ s ++ colorReset)

/-- The environment one invocation runs against: the argument vector after
the program name, the results git would report, the outcome of the HTTP round
trip, and the outcome of the clipboard attempt. -/
structure Env where
  args : List String
  isRepo : Bool
  apiKey : String
  git : GitEnv
  gitStatus : Except String String
  api : ApiOutcome
  clipboard : Except String Unit

/-- Output of `fmt.Printf("%s v%s\n", appName, version)` (main.go line 92). -/
def versionLine : String := appName ++ " v" ++ version ++ "\n"

/-- printHelp of main.go (lines 177-218): the usage text with the eleven
format arguments substituted, one Lean string literal per source line. -/
def helpText : String :=
  appName ++ " v" ++ version ++ " - AI-powered Git commit message generator\n" ++
  "\n" ++
  "USAGE:\n" ++
  "    " ++ appName ++ " [OPTIONS]\n" ++
  "    " ++ appName ++ " [CONTEXT]\n" ++
  "\n" ++
  "OPTIONS:\n" ++
  "    -h, --help      Show this help message\n" ++
  "    -v, --version   Show version information\n" ++
  "\n" ++
  "ARGUMENTS:\n" ++
  "    CONTEXT         Optional context to help generate better commit messages\n" ++
  "                   (e.g., \"changes from Bot API 9.0\", \"refactor for performance\")\n" ++
  "\n" ++
  "SETUP:\n" ++
  "    1. Get your Gemini API key from: https://aistudio.google.com/apikey\n" ++
  "    2. Set the environment variable: export GOOGLE_AI_TOKEN=your_api_key_here\n" ++
  "    3. Run " ++ appName ++ " in any git repository with changes\n" ++
  "\n" ++
  "DESCRIPTION:\n" ++
  "    " ++ appName ++ " analyzes your git changes and generates perfect commit messages\n" ++
  "    using Google\x27s Gemini AI. It follows conventional commit standards,\n" ++
  "    includes relevant emojis, and automatically copies the message to\n" ++
  "    your clipboard for easy use.\n" ++
  "\n" ++
  "    The tool prioritizes staged changes (files added with \x27git add\x27), but\n" ++
  "    if no staged changes are found, it will analyze all unstaged changes\n" ++
  "    in your working directory.\n" ++
  "\n" ++
  "    You can optionally provide context to help generate more accurate\n" ++
  "    commit messages when you have many related changes.\n" ++
  "\n" ++
  "EXAMPLES:\n" ++
  "    " ++ appName ++ "                              # Generate commit message for changes\n" ++
  "    " ++ appName ++ " \"Bot API 9.0 migration\"      # Generate with context\n" ++
  "    " ++ appName ++ " \"performance improvements\"   # Generate with context\n" ++
  "    " ++ appName ++ " --version                   # Show version\n" ++
  "    " ++ appName ++ " --help                     # Show this help\n" ++
  "\n"

/-- Lines 136-145 of main.go: the subtle analysis notices keyed on the
changes-type tag. -/
def analyzeEvents (changesType : String) : List Event :=
  if changesType = "staged" then
    [grayE ("Analyzing staged changes...\n")]
  else if changesType = "unstaged" then
    [grayE ("No staged changes, analyzing unstaged changes...\n"),
     grayE ("💡 Tip: Run \x27git add .\x27 to stage changes first\n")]
  else if changesType = "untracked" then
    [grayE ("Analyzing untracked files...\n"),
     grayE ("💡 Tip: Run \x27git add .\x27 to stage files first\n")]
  else []

/-- Events emitted by main.go lines 104-121: the repository probe and, once
both pre-flight checks pass, the optional context notice. -/
def preEvents (context : String) : List Event :=
  [Event.git .revParseGitDir] ++
    (if context ≠ "" then [grayE ("📝 Context: \"" ++ context ++ "\"\n")] else [])

/-- The five stdout writes of main.go lines 162-166 displaying the generated
message. -/
def displayEvents (commitMsg : String) : List Event :=
  [Event.out ("\n"),
   boldE ("✨ Generated commit message:\n"),
   cyanE ("┌─────────────────────────────────────────────────────────────────\n"),
   cyanE ("│ " ++ commitMsg ++ "\n"),
   cyanE ("└─────────────────────────────────────────────────────────────────\n")]

/-- main.go lines 104-175: the pipeline after argument parsing, given the
joined context string.  Produces the event trace and the exit status (Go
`os.Exit(1)` on the fatal paths, falling off `main` is status 0). -/
def mainChecked (env : Env) (context : String) : List Event × Nat :=
  if env.isRepo = false then
    ([Event.git .revParseGitDir, redE ("❌ Error: Not a git repository\n")], 1)
  else if env.apiKey = "" then
    ([Event.git .revParseGitDir,
      redE ("❌ Error: GOOGLE_AI_TOKEN environment variable not set\n"),
      redE ("   Get your API key from: https://aistudio.google.com/apikey\n"),
      redE ("   Then run: export GOOGLE_AI_TOKEN=your_api_key_here\n")], 1)
  else
    match (getGitDiff env.git).2 with
    | .error e =>
        (preEvents context ++ (getGitDiff env.git).1.map Event.git ++
          [redE ("❌ Error getting git diff: " ++ e ++ "\n")], 1)
    | .ok (diff, changesType) =>
      if goTrimSpace diff = "" then
        (preEvents context ++ (getGitDiff env.git).1.map Event.git ++
          [Event.out ("✨ No changes detected. Nothing to commit!\n")], 0)
      else
        match env.gitStatus with
        | .error e =>
            (preEvents context ++ (getGitDiff env.git).1.map Event.git ++
              analyzeEvents changesType ++
              [Event.git .statusPorcelain,
               redE ("❌ Error getting git status: " ++ e ++ "\n")], 1)
        | .ok status =>
          match generateCommitMessage env.api env.apiKey diff status context changesType with
          | .error ge =>
              (preEvents context ++ (getGitDiff env.git).1.map Event.git ++
                analyzeEvents changesType ++
                [Event.git .statusPorcelain, Event.httpPost,
                 redE ("❌ Error generating commit message: " ++ renderGenError ge ++ "\n")], 1)
          | .ok commitMsg =>
            match env.clipboard with
            | .error cerr =>
                (preEvents context ++ (getGitDiff env.git).1.map Event.git ++
                  analyzeEvents changesType ++
                  [Event.git .statusPorcelain, Event.httpPost] ++
                  displayEvents commitMsg ++
                  [Event.clipboard,
                   grayE ("📋 Could not copy to clipboard: " ++ cerr ++ "\n")], 0)
            | .ok _ =>
                (preEvents context ++ (getGitDiff env.git).1.map Event.git ++
                  analyzeEvents changesType ++
                  [Event.git .statusPorcelain, Event.httpPost] ++
                  displayEvents commitMsg ++
                  [Event.clipboard, grayE ("📋 Copied to clipboard\n")], 0)

/-- main of main.go (lines 85-175): the argument switch of lines 89-102 in
front of the checked pipeline; remaining tokens are joined with single spaces
into the context string. -/
def mainRun (env : Env) : List Event × Nat :=
  match env.args with
  | [] => mainChecked env ""
  | a :: rest =>
    if a = "--version" ∨ a = "-v" then ([Event.out versionLine], 0)
    else if a = "--help" ∨ a = "-h" then ([Event.out helpText], 0)
    else mainChecked env (String.intercalate (" ") (a :: rest))

/-- Argument vectors that neither print the version nor the help text. -/
def runMode : List String → Bool
  | [] => true
  | a :: _ => !(a == "--version" || a == "-v" || a == "--help" || a == "-h")

/-- Whether `needle` occurs as a contiguous substring of the character list
`haystack`; used to ask whether an output line mentions the commit message. -/
def containsSub (needle : List Char) : List Char → Bool
  | [] => needle.isPrefixOf []
  | c :: rest => needle.isPrefixOf (c :: rest) || containsSub needle rest

/-- Whether an observable event is a terminal write mentioning `m`. -/
def eventMentions (m : String) : Event → Bool
  | .out s => containsSub m.data s.data
  | .err s => containsSub m.data s.data
  | _ => false

end Genie

namespace Genie

/-- A non-empty result of `goTrim p` never starts with a character satisfying
`p`: the left pass removed every leading such character and the right pass
only shortens the list from the tail. -/
theorem goTrim_head_not (p : Char → Bool) (s : String) (c : Char)
    (h : (goTrim p s).data.head? = some c) : p c = false := by
  replace h : ((s.data.dropWhile p).rdropWhile p).head? = some c := h
  have hne : (s.data.dropWhile p).rdropWhile p ≠ [] := by
    intro h0
    rw [h0] at h
    simp at h
  have hlne : s.data.dropWhile p ≠ [] := by
    intro h0
    apply hne
    rw [h0]
    simp
  have hpre : (s.data.dropWhile p).rdropWhile p <+: s.data.dropWhile p :=
    List.rdropWhile_prefix p _
  have h1 := List.IsPrefix.head hpre hne
  rw [List.head?_eq_head hne, h1] at h
  have h2 := List.head_dropWhile_not p s.data hlne
  cases h
  exact h2

/-- A non-empty result of `goTrim p` never ends with a character satisfying
`p`. -/
theorem goTrim_getLast_not (p : Char → Bool) (s : String) (c : Char)
    (h : (goTrim p s).data.getLast? = some c) : p c = false := by
  replace h : ((s.data.dropWhile p).rdropWhile p).getLast? = some c := h
  have hne : (s.data.dropWhile p).rdropWhile p ≠ [] := by
    intro h0
    rw [h0] at h
    simp at h
  have h1 := List.rdropWhile_last_not p (s.data.dropWhile p) hne
  rw [List.getLast?_eq_getLast _ hne] at h
  cases h
  simpa using h1

/-- generateCommitMessage branches only on the outcome of the HTTP round
trip; the string arguments do not influence the result. -/
theorem generateCommitMessage_args_irrel (api : ApiOutcome)
    (a b c d e a2 b2 c2 d2 e2 : String) :
    generateCommitMessage api a b c d e = generateCommitMessage api a2 b2 c2 d2 e2 := rfl

end Genie

/-- C1: on a successful API response the final commit message is the first
candidate first text segment, trimmed and quote-stripped.  COUNTEREXAMPLE to
the one-layer reading: Go `strings.Trim` removes every leading and trailing
quote character, so a doubly quote-wrapped reply loses BOTH layers rather
than keeping the inner one. -/
theorem C1_counterexample :
    Genie.cleanCommitMessage ("\x22\x22fix: correct bug\x22\x22") = "fix: correct bug" ∧
    Genie.cleanCommitMessage ("\x22\x22fix: correct bug\x22\x22") ≠ "\x22fix: correct bug\x22" := by
  constructor
  · rfl
  · decide

/-- C1 (amended): the final commit message is obtained by trimming
surrounding whitespace and then stripping ALL leading and trailing single or
double quote characters (not exactly one layer): the result never begins or
ends with a quote character, a singly wrapped reply loses its quotes, a
whitespace-padded reply is trimmed, and a doubly wrapped reply loses both
layers. -/
theorem C1_theorem (s : String) :
    (∀ c, (Genie.cleanCommitMessage s).data.head? = some c →
      Genie.isQuoteChar c = false) ∧
    (∀ c, (Genie.cleanCommitMessage s).data.getLast? = some c →
      Genie.isQuoteChar c = false) ∧
    Genie.cleanCommitMessage ("\x22fix: correct bug\x22") = "fix: correct bug" ∧
    Genie.cleanCommitMessage ("  feat: add x  ") = "feat: add x" ∧
    Genie.cleanCommitMessage ("\x22\x22fix: correct bug\x22\x22") = "fix: correct bug" := by
  refine ⟨?_, ?_, rfl, rfl, rfl⟩
  · intro c hc
    exact Genie.goTrim_head_not Genie.isQuoteChar (Genie.goTrimSpace s) c hc
  · intro c hc
    exact Genie.goTrim_getLast_not Genie.isQuoteChar (Genie.goTrimSpace s) c hc

/-- C1 witness: the amended theorem applied at a singly quote-wrapped input,
whose cleaned head is the letter f, not a quote character. -/
theorem C1_witness : Genie.isQuoteChar (Char.ofNat 102) = false :=
  (C1_theorem ("\x22fix\x22")).1 (Char.ofNat 102) (by decide)

/-- C3: a response body with a top-level error object fails.
COUNTEREXAMPLE to exact-message equality: the code wraps the message with
the prefix API error via `fmt.Errorf`, so the rendered failure message is
not the error object message field verbatim (here shown with a candidates
list also present). -/
theorem C3_counterexample :
    Genie.processResponse
        { statusCode := 200,
          bodyParse :=
            .ok { candidates := [{ content := { parts := [{ text := "ok" }] } }],
                  error := some { code := 429, message := "quota exceeded" } } } =
      .error (.apiError ("quota exceeded")) ∧
    Genie.renderGenError (.apiError ("quota exceeded")) ≠ "quota exceeded" := by
  constructor
  · rfl
  · decide

/-- C3 (amended): for every response body carrying a top-level error object,
the client fails with the apiError condition carrying that object's message
field, regardless of whether a candidates list is also present, and the
failure renders as the fixed prefix API error followed by that message. -/
theorem C3_theorem (sc : Nat) (resp : Genie.GeminiResponse) (e : Genie.ErrorInfo)
    (he : resp.error = some e) :
    Genie.processResponse { statusCode := sc, bodyParse := .ok resp } =
      .error (.apiError e.message) ∧
    Genie.renderGenError (.apiError e.message) = "API error: " ++ e.message := by
  constructor
  · simp [Genie.processResponse, he]
  · rfl

/-- C3 witness: the amended theorem at a concrete error object sitting next
to an empty candidates list. -/
theorem C3_witness :
    Genie.processResponse
        { statusCode := 200,
          bodyParse :=
            .ok { candidates := [],
                  error := some { code := 400, message := "bad key" } } } =
      .error (.apiError ("bad key")) :=
  (C3_theorem 200
    { candidates := [], error := some { code := 400, message := "bad key" } }
    { code := 400, message := "bad key" } rfl).1

/-- C4: the change collector tries staged diff, then unstaged diff, then
untracked files in that fixed order, short-circuits on the first non-empty
trimmed result with the corresponding kind tag, and when the staged diff is
non-empty the unstaged and untracked queries are never invoked. -/
theorem C4_theorem (g : Genie.GitEnv) :
    (∀ o, g.diffCached = .ok o → Genie.goTrimSpace o ≠ "" →
      Genie.getGitDiff g =
        ([Genie.GitCmd.diffCached], .ok (Genie.goTrimSpace o, "staged")) ∧
      Genie.GitCmd.diff ∉ (Genie.getGitDiff g).1 ∧
      Genie.GitCmd.lsFilesOthers ∉ (Genie.getGitDiff g).1) ∧
    (∀ o o2, g.diffCached = .ok o → Genie.goTrimSpace o = "" →
      g.diffWorking = .ok o2 → Genie.goTrimSpace o2 ≠ "" →
      Genie.getGitDiff g =
        ([Genie.GitCmd.diffCached, Genie.GitCmd.diff],
          .ok (Genie.goTrimSpace o2, "unstaged"))) ∧
    (∀ o o2 o3, g.diffCached = .ok o → Genie.goTrimSpace o = "" →
      g.diffWorking = .ok o2 → Genie.goTrimSpace o2 = "" →
      g.lsFiles = .ok o3 → Genie.goTrimSpace o3 ≠ "" →
      Genie.getGitDiff g =
        ([Genie.GitCmd.diffCached, Genie.GitCmd.diff, Genie.GitCmd.lsFilesOthers],
          .ok (Genie.untrackedSummary (Genie.goTrimSpace o3), "untracked"))) := by
  refine ⟨?_, ?_, ?_⟩
  · intro o h1 h2
    unfold Genie.getGitDiff
    rw [h1]
    simp [h2]
  · intro o o2 h1 h2 h3 h4
    unfold Genie.getGitDiff
    rw [h1, h3]
    simp [h2, h4]
  · intro o o2 o3 h1 h2 h3 h4 h5 h6
    unfold Genie.getGitDiff
    rw [h1, h3, h5]
    simp [h2, h4, h6]

/-- C4 witness: a repository state with a non-empty staged diff: only the
staged query runs and the kind is staged. -/
theorem C4_witness :
    Genie.getGitDiff { diffCached := .ok ("x"), diffWorking := .ok (""), lsFiles := .ok ("") } =
      ([Genie.GitCmd.diffCached], .ok (Genie.goTrimSpace ("x"), "staged")) :=
  ((C4_theorem _).1 ("x") rfl (by decide)).1

/-- C7: an empty candidates list yields the noResponse failure and a first
candidate with an empty parts list yields the emptyResponse failure, and
these conditions are distinct from a transport error, from a JSON parse
failure, and from the error-object failure. -/
theorem C7_theorem :
    (∀ (sc : Nat) (resp : Genie.GeminiResponse), resp.error = none →
      resp.candidates = [] →
      Genie.processResponse { statusCode := sc, bodyParse := .ok resp } =
        .error .noResponse) ∧
    (∀ (sc : Nat) (resp : Genie.GeminiResponse) (c : Genie.Candidate)
        (cs : List Genie.Candidate), resp.error = none →
      resp.candidates = c :: cs → c.content.parts = [] →
      Genie.processResponse { statusCode := sc, bodyParse := .ok resp } =
        .error .emptyResponse) ∧
    (∀ m, Genie.GenError.noResponse ≠ .transport m ∧
      Genie.GenError.emptyResponse ≠ .transport m ∧
      Genie.GenError.noResponse ≠ .parse m ∧
      Genie.GenError.emptyResponse ≠ .parse m ∧
      Genie.GenError.noResponse ≠ .apiError m ∧
      Genie.GenError.emptyResponse ≠ .apiError m) := by
  refine ⟨?_, ?_, ?_⟩
  · intro sc resp he hc
    simp [Genie.processResponse, he, hc]
  · intro sc resp c cs he hc hp
    simp [Genie.processResponse, he, hc, hp]
  · intro m
    refine ⟨?_, ?_, ?_, ?_, ?_, ?_⟩ <;> intro h <;> cases h

/-- C7 witness: the empty-candidates case at a concrete response. -/
theorem C7_witness :
    Genie.processResponse
        { statusCode := 200, bodyParse := .ok { candidates := [], error := none } } =
      .error .noResponse :=
  C7_theorem.1 200 { candidates := [], error := none } rfl rfl

/-- C8: prompt assembly is a pure, deterministic function of the diff text,
status text, optional context, and kind tag: two runs with identical inputs
yield byte-identical prompt text. -/
theorem C8_theorem (d1 s1 c1 k1 d2 s2 c2 k2 : String)
    (hd : d1 = d2) (hs : s1 = s2) (hc : c1 = c2) (hk : k1 = k2) :
    Genie.buildPrompt d1 s1 c1 k1 = Genie.buildPrompt d2 s2 c2 k2 := by
  rw [hd, hs, hc, hk]

/-- C8 witness: the builder applied twice to one concrete input. -/
theorem C8_witness :
    Genie.buildPrompt ("d") ("s") ("ctx") ("staged") =
      Genie.buildPrompt ("d") ("s") ("ctx") ("staged") :=
  C8_theorem ("d") ("s") ("ctx") ("staged") ("d") ("s") ("ctx") ("staged") rfl rfl rfl rfl

/-- C10: the client never inspects the HTTP status code: the outcome is the
same function of the parsed body for every status code, a non-2xx response
whose body holds a non-empty candidates list (and no error object) is a
success, and an unparseable body is a parse failure, not an HTTP-status
failure. -/
theorem C10_theorem :
    (∀ (sc1 sc2 : Nat) (bp : Genie.BodyParse),
      Genie.processResponse { statusCode := sc1, bodyParse := bp } =
        Genie.processResponse { statusCode := sc2, bodyParse := bp }) ∧
    (∀ (sc : Nat) (resp : Genie.GeminiResponse) (c : Genie.Candidate)
        (cs : List Genie.Candidate) (p : Genie.PartResponse)
        (ps : List Genie.PartResponse),
      ¬(200 ≤ sc ∧ sc < 300) → resp.error = none →
      resp.candidates = c :: cs → c.content.parts = p :: ps →
      Genie.processResponse { statusCode := sc, bodyParse := .ok resp } =
        .ok (Genie.cleanCommitMessage p.text)) ∧
    (∀ (sc : Nat) (m : String),
      Genie.processResponse { statusCode := sc, bodyParse := .malformed m } =
        .error (.parse m)) := by
  refine ⟨?_, ?_, ?_⟩
  · intro sc1 sc2 bp
    rfl
  · intro sc resp c cs p ps hsc he hc hp
    simp [Genie.processResponse, he, hc, hp]
  · intro sc m
    rfl

/-- C10 witness: a 500 response with a well-formed body and a candidate is
treated as success. -/
theorem C10_witness :
    Genie.processResponse
        { statusCode := 500,
          bodyParse :=
            .ok { candidates := [{ content := { parts := [{ text := "m" }] } }],
                  error := none } } =
      .ok (Genie.cleanCommitMessage ("m")) :=
  C10_theorem.2.1 500
    { candidates := [{ content := { parts := [{ text := "m" }] } }], error := none }
    { content := { parts := [{ text := "m" }] } } []
    { text := "m" } [] (by decide) rfl rfl rfl

namespace Genie

/-- In run mode (no version/help flag) the pipeline body runs with the joined
context string. -/
theorem mainRun_eq_mainChecked (env : Env) (h : runMode env.args = true) :
    ∃ ctx, mainRun env = mainChecked env ctx := by
  cases henv : env.args with
  | nil => exact ⟨"", by simp [mainRun, henv]⟩
  | cons a rest =>
    rw [henv] at h
    simp only [runMode, Bool.not_eq_eq_eq_not, Bool.not_true, Bool.or_eq_false_iff,
      beq_eq_false_iff_ne, ne_eq] at h
    refine ⟨String.intercalate (" ") (a :: rest), ?_⟩
    have h1 : ¬(a = "--version" ∨ a = "-v") := by tauto
    have h2 : ¬(a = "--help" ∨ a = "-h") := by tauto
    simp [mainRun, henv, h1, h2]

/-- The pre-flight events never include the HTTP POST. -/
theorem httpPost_not_mem_preEvents (c : String) : Event.httpPost ∉ preEvents c := by
  simp only [preEvents, grayE]
  split <;> simp

/-- Mapped git events never include the HTTP POST. -/
theorem httpPost_not_mem_map_git (l : List GitCmd) :
    Event.httpPost ∉ l.map Event.git := by
  simp

/-- With both pre-flight checks passing, a non-empty collected diff, a good
status query, a generated message, and a failing clipboard, the trace and
exit status of the pipeline body. -/
theorem mainChecked_clipfail (env : Env) (ctx d t status msg cerr : String)
    (hrepo : env.isRepo = true) (hkey : ¬ env.apiKey = "")
    (hdiff : (getGitDiff env.git).2 = .ok (d, t))
    (hne : ¬ goTrimSpace d = "")
    (hstatus : env.gitStatus = .ok status)
    (hgen : generateCommitMessage env.api env.apiKey d status ctx t = .ok msg)
    (hclip : env.clipboard = .error cerr) :
    mainChecked env ctx =
      (preEvents ctx ++ (getGitDiff env.git).1.map Event.git ++ analyzeEvents t ++
        [Event.git .statusPorcelain, Event.httpPost] ++ displayEvents msg ++
        [Event.clipboard, grayE ("📋 Could not copy to clipboard: " ++ cerr ++ "\n")], 0) := by
  simp [mainChecked, hrepo, hkey, hdiff, hne, hstatus, hgen, hclip]

/-- With both pre-flight checks passing and an empty trimmed diff, the
pipeline body prints the nothing-to-commit notice and stops with status 0. -/
theorem mainChecked_nochanges (env : Env) (ctx d t : String)
    (hrepo : env.isRepo = true) (hkey : ¬ env.apiKey = "")
    (hdiff : (getGitDiff env.git).2 = .ok (d, t)) (hempty : goTrimSpace d = "") :
    mainChecked env ctx =
      (preEvents ctx ++ (getGitDiff env.git).1.map Event.git ++
        [Event.out ("✨ No changes detected. Nothing to commit!\n")], 0) := by
  simp [mainChecked, hrepo, hkey, hdiff, hempty]

/-- When the repository probe fails or the key is empty, no run shape ever
reaches the HTTP POST. -/
theorem httpPost_not_mem_mainRun_abort (env : Env)
    (h : env.isRepo = false ∨ env.apiKey = "") :
    Event.httpPost ∉ (mainRun env).1 := by
  have habort : ∀ ctx, Event.httpPost ∉ (mainChecked env ctx).1 := by
    intro ctx
    rcases h with h | h
    · simp [mainChecked, h, redE]
    · by_cases hrepo : env.isRepo = false
      · simp [mainChecked, hrepo, redE]
      · simp [mainChecked, hrepo, h, redE]
  cases henv : env.args with
  | nil => simpa [mainRun, henv] using habort ""
  | cons a rest =>
    by_cases h1 : a = "--version" ∨ a = "-v"
    · simp [mainRun, henv, h1]
    · by_cases h2 : a = "--help" ∨ a = "-h"
      · simp [mainRun, henv, h1, h2]
      · simpa [mainRun, henv, h1, h2] using habort _

/-- A version or help flag at the front short-circuits to one stdout write. -/
theorem mainRun_version (env : Env) (a : String) (rest : List String)
    (hargs : env.args = a :: rest) (h : a = "--version" ∨ a = "-v") :
    mainRun env = ([Event.out versionLine], 0) := by
  simp only [mainRun, hargs]
  rw [if_pos h]

/-- A help flag at the front (when the version flag does not match)
short-circuits to printing the usage text. -/
theorem mainRun_help (env : Env) (a : String) (rest : List String)
    (hargs : env.args = a :: rest) (hno : ¬(a = "--version" ∨ a = "-v"))
    (h : a = "--help" ∨ a = "-h") :
    mainRun env = ([Event.out helpText], 0) := by
  simp only [mainRun, hargs]
  rw [if_neg hno, if_pos h]

end Genie

/-- C2: when a commit message was generated but the clipboard copy fails, the
run still exits 0 and a warning is printed.  COUNTEREXAMPLE to the message
being printed again as a manual-copy fallback: in a complete failing-copy run
the commit message appears in exactly one terminal write (the framed
display before the copy attempt), not in a second fallback print. -/
theorem C2_counterexample :
    (Genie.mainRun
        { args := [], isRepo := true, apiKey := "k",
          git := { diffCached := .ok ("d"), diffWorking := .ok (""), lsFiles := .ok ("") },
          gitStatus := .ok ("s"),
          api := .response
            { statusCode := 200,
              bodyParse := .ok { candidates := [{ content := { parts := [{ text := "msg" }] } }],
                                 error := none } },
          clipboard := .error ("boom") }).2 = 0 ∧
    (Genie.mainRun
        { args := [], isRepo := true, apiKey := "k",
          git := { diffCached := .ok ("d"), diffWorking := .ok (""), lsFiles := .ok ("") },
          gitStatus := .ok ("s"),
          api := .response
            { statusCode := 200,
              bodyParse := .ok { candidates := [{ content := { parts := [{ text := "msg" }] } }],
                                 error := none } },
          clipboard := .error ("boom") }).1.countP (Genie.eventMentions ("msg")) = 1 := by
  constructor
  · rfl
  · decide

/-- C2 (amended): when the run reaches the clipboard attempt and the copy
fails, the failure is downgraded to a gray stdout warning naming the
clipboard error and the process still exits 0; the only output after the
attempt is that warning, so the commit message is not printed again (it is
already on screen from the framed display emitted before the attempt). -/
theorem C2_theorem (env : Genie.Env) (d t status msg cerr : String)
    (hrun : Genie.runMode env.args = true)
    (hrepo : env.isRepo = true) (hkey : ¬ env.apiKey = "")
    (hdiff : (Genie.getGitDiff env.git).2 = .ok (d, t))
    (hne : ¬ Genie.goTrimSpace d = "")
    (hstatus : env.gitStatus = .ok status)
    (hgen : Genie.generateCommitMessage env.api env.apiKey d status ("") t = .ok msg)
    (hclip : env.clipboard = .error cerr) :
    (Genie.mainRun env).2 = 0 ∧
    ∃ pre, (Genie.mainRun env).1 =
      pre ++ Genie.displayEvents msg ++
        [Genie.Event.clipboard,
         Genie.grayE ("📋 Could not copy to clipboard: " ++ cerr ++ "\n")] := by
  obtain ⟨ctx, hmc⟩ := Genie.mainRun_eq_mainChecked env hrun
  have hgen2 : Genie.generateCommitMessage env.api env.apiKey d status ctx t = .ok msg :=
    (Genie.generateCommitMessage_args_irrel env.api env.apiKey d status ctx t
      env.apiKey d status ("") t).trans hgen
  rw [hmc, Genie.mainChecked_clipfail env ctx d t status msg cerr hrepo hkey hdiff hne
    hstatus hgen2 hclip]
  refine ⟨rfl, ⟨Genie.preEvents ctx ++ (Genie.getGitDiff env.git).1.map Genie.Event.git ++
    Genie.analyzeEvents t ++ [Genie.Event.git .statusPorcelain, Genie.Event.httpPost], ?_⟩⟩
  simp [List.append_assoc]

/-- C2 witness: the amended theorem at a concrete failing-clipboard run. -/
theorem C2_witness :
    (Genie.mainRun
        { args := [], isRepo := true, apiKey := "k",
          git := { diffCached := .ok ("d"), diffWorking := .ok (""), lsFiles := .ok ("") },
          gitStatus := .ok ("s"),
          api := .response
            { statusCode := 200,
              bodyParse := .ok { candidates := [{ content := { parts := [{ text := "msg" }] } }],
                                 error := none } },
          clipboard := .error ("boom") }).2 = 0 :=
  (C2_theorem
    { args := [], isRepo := true, apiKey := "k",
      git := { diffCached := .ok ("d"), diffWorking := .ok (""), lsFiles := .ok ("") },
      gitStatus := .ok ("s"),
      api := .response
        { statusCode := 200,
          bodyParse := .ok { candidates := [{ content := { parts := [{ text := "msg" }] } }],
                             error := none } },
      clipboard := .error ("boom") }
    ("d") ("staged") ("s") ("msg") ("boom") rfl rfl (by decide) rfl
    (by decide) rfl rfl rfl).1

/-- C5: when the collected diff is empty after trimming, the pipeline prints
the nothing-to-commit notice and terminates with exit status 0 without the
HTTP POST ever occurring. -/
theorem C5_theorem (env : Genie.Env) (d t : String)
    (hrun : Genie.runMode env.args = true)
    (hrepo : env.isRepo = true) (hkey : ¬ env.apiKey = "")
    (hdiff : (Genie.getGitDiff env.git).2 = .ok (d, t))
    (hempty : Genie.goTrimSpace d = "") :
    (Genie.mainRun env).2 = 0 ∧
    Genie.Event.out ("✨ No changes detected. Nothing to commit!\n") ∈ (Genie.mainRun env).1 ∧
    Genie.Event.httpPost ∉ (Genie.mainRun env).1 := by
  obtain ⟨ctx, hmc⟩ := Genie.mainRun_eq_mainChecked env hrun
  rw [hmc, Genie.mainChecked_nochanges env ctx d t hrepo hkey hdiff hempty]
  refine ⟨rfl, by simp, ?_⟩
  intro hmem
  rcases List.mem_append.mp hmem with h | h
  · rcases List.mem_append.mp h with h1 | h1
    · exact Genie.httpPost_not_mem_preEvents ctx h1
    · exact Genie.httpPost_not_mem_map_git _ h1
  · simp at h

/-- C5 witness: a run against a repository with no changes at all. -/
theorem C5_witness :
    (Genie.mainRun
        { args := [], isRepo := true, apiKey := "k",
          git := { diffCached := .ok (""), diffWorking := .ok (""), lsFiles := .ok ("") },
          gitStatus := .ok (""), api := .transportError (""), clipboard := .ok () }).2 = 0 :=
  (C5_theorem
    { args := [], isRepo := true, apiKey := "k",
      git := { diffCached := .ok (""), diffWorking := .ok (""), lsFiles := .ok ("") },
      gitStatus := .ok (""), api := .transportError (""), clipboard := .ok () }
    ("") ("") rfl rfl (by decide) rfl rfl).1

/-- C6: an unset or empty API key aborts the run with exit status 1 before
any HTTP request, and conversely any run that reaches the HTTP POST passed
both the git-repository check and the API-key check first. -/
theorem C6_theorem :
    (∀ env : Genie.Env, Genie.runMode env.args = true → env.apiKey = "" →
      (Genie.mainRun env).2 = 1 ∧ Genie.Event.httpPost ∉ (Genie.mainRun env).1) ∧
    (∀ env : Genie.Env, Genie.Event.httpPost ∈ (Genie.mainRun env).1 →
      env.isRepo = true ∧ ¬ env.apiKey = "") := by
  constructor
  · intro env h hkey
    constructor
    · obtain ⟨ctx, hmc⟩ := Genie.mainRun_eq_mainChecked env h
      rw [hmc]
      by_cases hrepo : env.isRepo = false
      · simp [Genie.mainChecked, hrepo]
      · simp [Genie.mainChecked, hrepo, hkey]
    · exact Genie.httpPost_not_mem_mainRun_abort env (Or.inr hkey)
  · intro env hmem
    by_cases hrepo : env.isRepo = true
    · by_cases hkey : env.apiKey = ""
      · exact absurd hmem (Genie.httpPost_not_mem_mainRun_abort env (Or.inr hkey))
      · exact ⟨hrepo, hkey⟩
    · refine absurd hmem (Genie.httpPost_not_mem_mainRun_abort env (Or.inl ?_))
      simpa using hrepo

/-- C6 witness: a run-mode invocation with the key unset exits 1. -/
theorem C6_witness :
    (Genie.mainRun
        { args := [], isRepo := true, apiKey := "",
          git := { diffCached := .ok (""), diffWorking := .ok (""), lsFiles := .ok ("") },
          gitStatus := .ok (""), api := .transportError (""), clipboard := .ok () }).2 = 1 :=
  (C6_theorem.1
    { args := [], isRepo := true, apiKey := "",
      git := { diffCached := .ok (""), diffWorking := .ok (""), lsFiles := .ok ("") },
      gitStatus := .ok (""), api := .transportError (""), clipboard := .ok () }
    rfl rfl).1

/-- C9: a leading version flag or help flag prints and exits 0 without any
git subprocess, HTTP request, or clipboard interaction. -/
theorem C9_theorem (env : Genie.Env) (a : String) (rest : List String)
    (hargs : env.args = a :: rest)
    (hflag : a = "--version" ∨ a = "-v" ∨ a = "--help" ∨ a = "-h") :
    (Genie.mainRun env).2 = 0 ∧
    ((a = "--version" ∨ a = "-v") →
      (Genie.mainRun env).1 = [Genie.Event.out Genie.versionLine]) ∧
    ((a = "--help" ∨ a = "-h") →
      (Genie.mainRun env).1 = [Genie.Event.out Genie.helpText]) ∧
    (∀ c, Genie.Event.git c ∉ (Genie.mainRun env).1) ∧
    Genie.Event.httpPost ∉ (Genie.mainRun env).1 ∧
    Genie.Event.clipboard ∉ (Genie.mainRun env).1 := by
  by_cases h1 : a = "--version" ∨ a = "-v"
  · rw [Genie.mainRun_version env a rest hargs h1]
    refine ⟨rfl, fun _ => rfl, fun hh => ?_, fun c => ?_, ?_, ?_⟩
    · exfalso
      rcases h1 with h1 | h1 <;> rcases hh with hh | hh <;> rw [h1] at hh <;>
        exact absurd hh (by decide)
    · simp
    · simp
    · simp
  · have h2 : a = "--help" ∨ a = "-h" := by tauto
    rw [Genie.mainRun_help env a rest hargs h1 h2]
    refine ⟨rfl, fun hh => ?_, fun _ => rfl, fun c => ?_, ?_, ?_⟩
    · exact absurd hh h1
    · simp
    · simp
    · simp

/-- C9 witness: --version outside a git repository with no key set. -/
theorem C9_witness :
    (Genie.mainRun
        { args := ["--version"], isRepo := false, apiKey := "",
          git := { diffCached := .error (""), diffWorking := .error (""), lsFiles := .error ("") },
          gitStatus := .error (""), api := .transportError (""), clipboard := .ok () }).2 = 0 :=
  (C9_theorem
    { args := ["--version"], isRepo := false, apiKey := "",
      git := { diffCached := .error (""), diffWorking := .error (""), lsFiles := .error ("") },
      gitStatus := .error (""), api := .transportError (""), clipboard := .ok () }
    ("--version") [] rfl (Or.inl rfl)).1
